import Mathlib

/-!
Shallow embedding of the charge-carrier propagation code of the repository
(module GenericPropagation and its collaborators), for checking the
specification claims.

Sources embedded here:
* src/src/modules/GenericPropagation/GenericPropagationModule.cpp
  (`run`, `propagate`, the velocity lambdas, diffusion, batching,
  step-size adaptation);
* src/src/physics/Recombination.hpp (the recombination model with name
  `none`).

Conventions of the embedding:
* machine doubles are modelled as exact rationals; external library
  functions with no source in the repository (std::sqrt as used through
  Eigen `.norm()` and `Mag2`, the normal-distribution transform of
  core/utils/distributions.h, the pseudo-random engine) are abstract
  function fields of `Env`, so every theorem quantifies over them;
* collaborators whose code is not under src/ (the detector field and
  doping providers, `isWithinSensor`, `getSensorIntercept`, the
  Runge-Kutta stepper of tools/runge_kutta.h, the trapping, detrapping
  and impact-ionization models) are abstract `Env` fields or are
  modelled from the spec where a claim needs their behaviour; such
  definitions carry a doc comment starting with `Modelled from the
  spec:`;
* the `while` loops of the code run on explicit fuel; the group-batching
  loop of `run` consumes at least one unit of charge per iteration when
  the group size is positive, so fuel equal to the deposited charge is
  exact there, and the stepping loop of `propagate` is quantified over
  its fuel in every theorem;
* logging, histogram filling and the line-graph point collection are
  side channels; of those only the final carrier state written into the
  line-graph record (`plotFinalState`) is modelled, because claims
  mention it.
-/

namespace Allpix

/-- Charge carrier type. In the code (objects/SensorCharge.hpp,
declaration only) ELECTRON has the integer value -1 and HOLE the value
+1; `static_cast<int>(type)` in the velocity lambdas produces that
sign. -/
inductive CarrierType
  | ELECTRON
  | HOLE
deriving DecidableEq

/-- The sign obtained by `static_cast<int>(type)`. -/
def CarrierType.sign : CarrierType → ℚ
  | .ELECTRON => -1
  | .HOLE => 1

/-- Carrier state as in the code: MOTION is the transient starting
state, HALTED, RECOMBINED and TRAPPED are set by the stepping loop,
UNKNOWN is used by the line-graph output selection. -/
inductive CarrierState
  | MOTION
  | HALTED
  | RECOMBINED
  | TRAPPED
  | UNKNOWN
deriving DecidableEq

/-- Three-component vector over exact rationals, standing for both the
Eigen and ROOT vector types of the code. -/
@[ext]
structure Vec3 where
  x : ℚ
  y : ℚ
  z : ℚ
deriving DecidableEq

instance : Add Vec3 :=
  ⟨fun a b => ⟨a.x + b.x, a.y + b.y, a.z + b.z⟩⟩

instance : Sub Vec3 :=
  ⟨fun a b => ⟨a.x - b.x, a.y - b.y, a.z - b.z⟩⟩

instance : Neg Vec3 :=
  ⟨fun a => ⟨-a.x, -a.y, -a.z⟩⟩

instance : SMul ℚ Vec3 :=
  ⟨fun c v => ⟨c * v.x, c * v.y, c * v.z⟩⟩

instance : HDiv Vec3 ℚ Vec3 :=
  ⟨fun v c => ⟨v.x / c, v.y / c, v.z / c⟩⟩

instance : Zero Vec3 :=
  ⟨⟨0, 0, 0⟩⟩

/-- Dot product, as `Eigen::Vector3d::dot`. -/
def Vec3.dot (a b : Vec3) : ℚ :=
  a.x * b.x + a.y * b.y + a.z * b.z

/-- Cross product, as `Eigen::Vector3d::cross`. -/
def Vec3.cross (a b : Vec3) : Vec3 :=
  ⟨a.y * b.z - a.z * b.y, a.z * b.x - a.x * b.z, a.x * b.y - a.y * b.x⟩

/-- Squared Euclidean length (`squaredNorm` of Eigen, `Mag2` of ROOT). -/
def Vec3.normSq (a : Vec3) : ℚ :=
  a.x * a.x + a.y * a.y + a.z * a.z

/-- Result of one Runge-Kutta step of tools/runge_kutta.h: the consumed
step vector `step.value` and the local error vector `step.error`. -/
structure RKStepResult where
  value : Vec3
  error : Vec3
deriving DecidableEq

/-- The environment of one `GenericPropagationModule` instance: the
configuration values copied into members by the constructor together
with the abstract external collaborators (detector fields, geometry
containment, physical models, random engine, square root). All scalar
configuration values are the exact rationals standing for the stored
doubles. -/
structure Env where
  timestep_min : ℚ
  timestep_max : ℚ
  timestep_start : ℚ
  integration_time : ℚ
  target_spatial_precision : ℚ
  boltzmann_kT : ℚ
  sensorSizeZ : ℚ
  propagate_electrons : Bool
  propagate_holes : Bool
  has_magnetic_field : Bool
  charge_per_step : ℕ
  max_charge_groups : ℕ
  efield : Vec3 → Vec3
  bfield : Vec3 → Vec3
  doping : Vec3 → ℚ
  isWithinSensor : Vec3 → Bool
  interceptT : Vec3 → Vec3 → ℚ
  sqrt : ℚ → ℚ
  mobility : CarrierType → ℚ → ℚ → ℚ
  recombination : CarrierType → ℚ → ℚ → ℚ → Bool
  trapping : CarrierType → ℚ → ℚ → ℚ → Bool
  detrapping : CarrierType → ℚ → ℚ → ℚ
  multiplication : CarrierType → ℚ → ℚ → ℚ
  rkStep : (ℚ → Vec3 → Vec3) → Vec3 → ℚ → ℚ → RKStepResult
  rng : ℕ → ℚ
  gauss : ℚ → ℚ → ℚ

/-- Euclidean length of a vector: `v.norm()` of Eigen and
`std::sqrt(v.Mag2())` of the code, going through the abstract external
square root. -/
def Env.vnorm (env : Env) (v : Vec3) : ℚ :=
  env.sqrt v.normSq

/-- From src/src/physics/Recombination.hpp, class `None`: the model
selected by recombination_model "none" always reports the carrier as
alive. -/
def noneRecombination : CarrierType → ℚ → ℚ → ℚ → Bool :=
  fun _ _ _ _ => false

/-- Modelled from the spec: the trapping model selected by
trapping_model "none" (its header is not under src/) never signals a
capture. -/
def noneTrapping : CarrierType → ℚ → ℚ → ℚ → Bool :=
  fun _ _ _ _ => false

/-- Modelled from the spec: the impact-ionization model selected by
multiplication_model "none" (its header is not under src/) always
returns the per-step gain factor 1. -/
def noneMultiplication : CarrierType → ℚ → ℚ → ℚ :=
  fun _ _ _ => 1

/-- Modelled from the spec: `getSensorIntercept(p1, p2)` of the
detector model (its implementation is not under src/) returns the
boundary-crossing point of the segment from the last interior position
p1 to the first exterior position p2, by linear interpolation; the
interpolation parameter is the abstract `Env.interceptT`, about which
theorems assume strict interiority (between 0 and 1 exclusive) exactly
when p1 is inside the sensor and p2 is outside. -/
def getSensorIntercept (env : Env) (p1 p2 : Vec3) : Vec3 :=
  p1 + env.interceptT p1 p2 • (p2 - p1)

/-- Hall factor for electrons, assigned in the module constructor. -/
def electron_Hall : ℚ := 1.15

/-- Hall factor for holes, assigned in the module constructor. -/
def hole_Hall : ℚ := 0.9

/-- The lambda `carrier_velocity_noB` of `propagate` (lines 446-453):
velocity without magnetic field, `static_cast<int>(type) *
mobility_(type, efield.norm(), doping) * efield`. -/
def carrier_velocity_noB (env : Env) (type : CarrierType) (cur_pos : Vec3) : Vec3 :=
  let efield := env.efield cur_pos
  let doping := env.doping cur_pos
  (type.sign * env.mobility type (env.vnorm efield) doping) • efield

/-- The lambda `carrier_velocity_withB` of `propagate` (lines 455-477):
velocity with magnetic field and Hall correction, reproducing the
expression of the code term by term (the carrier sign appears in term1
and again on the outer product). -/
def carrier_velocity_withB (env : Env) (type : CarrierType) (cur_pos : Vec3) : Vec3 :=
  let efield := env.efield cur_pos
  let bfield := env.bfield cur_pos
  let doping := env.doping cur_pos
  let mob := env.mobility type (env.vnorm efield) doping
  let exb := efield.cross bfield
  let hallFactor := if type = CarrierType.ELECTRON then electron_Hall else hole_Hall
  let term1 : Vec3 := (type.sign * mob * hallFactor) • exb
  let term2 : Vec3 := (mob * mob * hallFactor * hallFactor * efield.dot bfield) • bfield
  let rnorm := 1 + mob * mob * hallFactor * hallFactor * bfield.dot bfield
  ((type.sign * mob) • (efield + term1 + term2)) / rnorm

/-- The velocity evaluator handed to the Runge-Kutta solver (line 482):
the with-field lambda when a magnetic field is seen, the no-field
lambda otherwise. -/
def carrier_velocity (env : Env) (type : CarrierType) (cur_pos : Vec3) : Vec3 :=
  if env.has_magnetic_field then carrier_velocity_withB env type cur_pos
  else carrier_velocity_noB env type cur_pos

/-- The velocity formula of spec section 4.1 for zero magnetic field,
written from the words of the spec: velocity = sign(type) *
mobility(type, |E|, doping) * E. -/
def spec_velocity_noB (env : Env) (type : CarrierType) (pos : Vec3) : Vec3 :=
  (type.sign * env.mobility type (env.vnorm (env.efield pos)) (env.doping pos)) •
    env.efield pos

/-- The velocity formula of spec section 4.1 with magnetic field,
written from the displayed block of the spec. -/
def spec_velocity_withB (env : Env) (type : CarrierType) (pos : Vec3) : Vec3 :=
  let efield := env.efield pos
  let bfield := env.bfield pos
  let mob := env.mobility type (env.vnorm efield) (env.doping pos)
  let hallFactor := if type = CarrierType.ELECTRON then electron_Hall else hole_Hall
  let exb := efield.cross bfield
  let term1 : Vec3 := (type.sign * (mob * hallFactor)) • exb
  let term2 : Vec3 := ((mob ^ 2 * hallFactor ^ 2) * efield.dot bfield) • bfield
  let rnorm := 1 + mob ^ 2 * hallFactor ^ 2 * bfield.dot bfield
  (1 / rnorm) • ((type.sign * mob) • (efield + term1 + term2))

/-- The lambda `carrier_diffusion` of `propagate` (lines 430-440): the
diffusion constant from the Einstein relation, its standard deviation
through the external square root, and three normal draws consumed from
the random stream in order x, y, z. -/
def carrier_diffusion (env : Env) (type : CarrierType)
    (efield_mag doping timestep : ℚ) (idx : ℕ) : Vec3 :=
  let diffusion_constant := env.boltzmann_kT * env.mobility type efield_mag doping
  let diffusion_std_dev := env.sqrt (2 * diffusion_constant * timestep)
  ⟨env.gauss diffusion_std_dev (env.rng idx),
   env.gauss diffusion_std_dev (env.rng (idx + 1)),
   env.gauss diffusion_std_dev (env.rng (idx + 2))⟩

/-- State of the stepping loop of `propagate`: the integrator value and
time, the saved previous position, time and field, the current step
size, the cumulative gain, the carrier state and the position in the
random stream. -/
structure PropState where
  position : Vec3
  last_position : Vec3
  efield : Vec3
  last_efield : Vec3
  time : ℚ
  last_time : ℚ
  dt : ℚ
  gain : ℚ
  state : CarrierState
  rngIdx : ℕ
deriving DecidableEq

/-- Loop state on entry of `propagate`: solver constructed at the
deposit position with step size timestep_start, gain 1, empty field
caches, state MOTION. -/
def initState (env : Env) (pos : Vec3) (idx0 : ℕ) : PropState :=
  ⟨pos, pos, 0, 0, 0, 0, env.timestep_start, 1, CarrierState.MOTION, idx0⟩

/-- The Runge-Kutta step executed at line 506, through the abstract
stepper applied to the chosen velocity evaluator and the current
integrator state. -/
def stepRK (env : Env) (type : CarrierType) (s : PropState) : RKStepResult :=
  env.rkStep (fun _ p => carrier_velocity env type p) s.position s.time s.dt

/-- Electric field queried at the new integrator value (line 515),
before the diffusion displacement. -/
def stepEfield (env : Env) (type : CarrierType) (s : PropState) : Vec3 :=
  env.efield (s.position + (stepRK env type s).value)

/-- New position of one loop iteration: integrator value after the step
plus the diffusion displacement (lines 510-521). -/
def stepPosition (env : Env) (type : CarrierType) (s : PropState) : Vec3 :=
  let posRK := s.position + (stepRK env type s).value
  let efield := env.efield posRK
  let doping := env.doping posRK
  posRK + carrier_diffusion env type (env.vnorm efield) doping s.dt s.rngIdx

/-- Outcome of the recombination test of lines 529-534: doping is
re-queried at the post-diffusion position, the survival draw is the
fourth random number of the iteration. -/
def stepRecombines (env : Env) (type : CarrierType) (s : PropState) : Bool :=
  env.recombination type (env.doping (stepPosition env type s))
    (env.rng (s.rngIdx + 3)) s.dt

/-- Outcome of the trapping test of line 537: the capture draw is the
fifth random number of the iteration, the field magnitude is the one
cached before diffusion. -/
def stepTrapping (env : Env) (type : CarrierType) (s : PropState) : Bool :=
  env.trapping type (env.rng (s.rngIdx + 4)) s.dt (env.vnorm (stepEfield env type s))

/-- Detrapping delay sampled at line 542 with the sixth random number
of the iteration (consumed only when the trapping test fired). -/
def stepDetrapTime (env : Env) (type : CarrierType) (s : PropState) : ℚ :=
  env.detrapping type (env.rng (s.rngIdx + 5)) (env.vnorm (stepEfield env type s))

/-- The clamp of lines 592-597: limit the adapted step size to the
configured minimum and maximum. -/
def clampStep (env : Env) (t : ℚ) : ℚ :=
  if t > env.timestep_max then env.timestep_max
  else if t < env.timestep_min then env.timestep_min
  else t

/-- Step-size adaptation of lines 579-598, operating on the step size
used by the step just taken: shrink by 0.75 when
|sensorSize.z/2 - position.z| < 2 * step.value.z (the check of line
583, against the top face only and the signed z component of the step),
otherwise shrink by 0.75 when the error norm exceeds the target
precision and grow by 1.5 when twice the error norm is below it; then
clamp into [timestep_min, timestep_max]. -/
def adaptTimestep (env : Env) (timestep uncertainty stepZ posZ : ℚ) : ℚ :=
  clampStep env
    (if |env.sensorSizeZ / 2 - posZ| < 2 * stepZ then timestep * 0.75
     else if uncertainty > env.target_spatial_precision then timestep * 0.75
     else if 2 * uncertainty < env.target_spatial_precision then timestep * 1.5
     else timestep)

/-- One iteration of the stepping loop of `propagate` (lines 500-598):
save the previous position, time and field; take a Runge-Kutta step;
query field and doping at the new value; add diffusion; set HALTED if
the new position is outside the sensor; set RECOMBINED if the
recombination test fires; if the trapping test fires, either advance
the time by the sampled detrapping delay (when it still fits the
integration window) or set TRAPPED; multiply the gain by the
impact-ionization factor; adapt the step size. The checks write the
state in this order without short-circuiting. -/
def propStep (env : Env) (type : CarrierType) (initial_time : ℚ) (s : PropState) :
    PropState :=
  let step := stepRK env type s
  let position := stepPosition env type s
  let efield := stepEfield env type s
  let state1 := if env.isWithinSensor position then s.state else CarrierState.HALTED
  let state2 := if stepRecombines env type s then CarrierState.RECOMBINED else state1
  let gain2 := s.gain *
    env.multiplication type ((env.vnorm efield + env.vnorm s.efield) / 2)
      (env.vnorm step.value)
  let dt2 := adaptTimestep env s.dt (env.vnorm step.error) step.value.z position.z
  if stepTrapping env type s then
    if initial_time + (s.time + s.dt) + stepDetrapTime env type s < env.integration_time
    then
      ⟨position, s.position, efield, s.efield,
       s.time + s.dt + stepDetrapTime env type s, s.time, dt2, gain2, state2,
       s.rngIdx + 6⟩
    else
      ⟨position, s.position, efield, s.efield, s.time + s.dt, s.time, dt2, gain2,
       CarrierState.TRAPPED, s.rngIdx + 6⟩
  else
    ⟨position, s.position, efield, s.efield, s.time + s.dt, s.time, dt2, gain2,
     state2, s.rngIdx + 5⟩

/-- The stepping loop of `propagate` (line 490): iterate while the
state is MOTION and the local time is below the integration window; the
fuel bounds the number of iterations of the embedding. -/
def propagateLoop (env : Env) (type : CarrierType) (initial_time : ℚ) :
    ℕ → PropState → PropState
  | 0, s => s
  | Nat.succ fuel, s =>
    if s.state = CarrierState.MOTION ∧ initial_time + s.time < env.integration_time
    then propagateLoop env type initial_time fuel (propStep env type initial_time s)
    else s

/-- Return value of `propagate`: final position, elapsed time,
cumulative gain, carrier state, plus the advanced random-stream index
of the shared event engine. -/
structure PropResult where
  position : Vec3
  time : ℚ
  gain : ℚ
  state : CarrierState
  rngIdx : ℕ
deriving DecidableEq

/-- Exit state of the stepping loop for a given fuel. -/
def loopResult (env : Env) (type : CarrierType) (initial_time : ℚ) (pos : Vec3)
    (idx0 fuel : ℕ) : PropState :=
  propagateLoop env type initial_time fuel (initState env pos idx0)

/-- The function `GenericPropagationModule::propagate` (lines 416-632):
run the stepping loop from the deposit position, then, exactly when the
exit state is HALTED, replace the final position by the sensor
intercept of the segment from the last saved position to the current
one (lines 601-607). -/
def propagate (env : Env) (type : CarrierType) (initial_time : ℚ) (pos : Vec3)
    (idx0 fuel : ℕ) : PropResult :=
  let s := loopResult env type initial_time pos idx0 fuel
  let fpos :=
    if s.state = CarrierState.HALTED then getSensorIntercept env s.last_position s.position
    else s.position
  ⟨fpos, s.time, s.gain, s.state, s.rngIdx⟩

/-- Carrier state written into the line-graph record (lines 610-617):
UNKNOWN when the drift time reached the integration window or the
carrier ended at the backside, the loop exit state otherwise. -/
def plotFinalState (env : Env) (s : PropState) : CarrierState :=
  if env.integration_time ≤ s.time ∨ s.last_position.z < -env.sensorSizeZ * 0.45 then
    CarrierState.UNKNOWN
  else s.state

/-- One element of the deposit collection consumed by `run`. -/
structure Deposit where
  localPosition : Vec3
  localTime : ℚ
  globalTime : ℚ
  type : CarrierType
  charge : ℕ
deriving DecidableEq

/-- One output record of `run`: the PropagatedCharge constructed at
lines 349-356. The stored charge is `std::lround(charge_per_step *
gain)`. -/
structure PropagatedCharge where
  localPosition : Vec3
  type : CarrierType
  charge : ℤ
  localTime : ℚ
  globalTime : ℚ
  state : CarrierState
deriving DecidableEq

/-- Rounding as std::lround does it: half away from zero. -/
def lround (q : ℚ) : ℤ :=
  if 0 ≤ q then ⌊q + 1 / 2⌋ else ⌈q - 1 / 2⌉

/-- Statistics counters of `run` and of the module (only those the
claims mention). -/
structure RunStats where
  total_deposits : ℕ
  deposits_exceeding_max_groups : ℕ
  propagated_charges_count : ℕ
  recombined_charges_count : ℕ
  trapped_charges_count : ℕ
  step_count : ℕ
deriving DecidableEq

/-- Exact ceiling division on naturals, modelling
`static_cast<unsigned int>(ceil(static_cast<double>(charge) /
max_charge_groups))` of line 299. For charges below 2 to the 53rd the
double division error is smaller than the distance of the quotient to
the nearest integer, so the floating ceil equals the exact one. -/
def ceilDiv (a b : ℕ) : ℕ :=
  (a + b - 1) / b

/-- The batcher adjustment of lines 297-304: when max_charge_groups is
nonzero and the integer quotient charge / charge_per_step exceeds it,
raise the group size to ceil(charge / max_charge_groups). -/
def adjusted_charge_per_step (maxGroups cps charge : ℕ) : ℕ :=
  if 0 < maxGroups ∧ maxGroups < charge / cps then ceilDiv charge maxGroups else cps

/-- Group sizes peeled off by the loop of lines 305-310, with explicit
fuel: while charge remains, truncate the group size to the remainder if
it exceeds it (the truncation persists, as the code mutates
charge_per_step), emit the group and subtract it. -/
def batchSizesF : ℕ → ℕ → ℕ → List ℕ
  | 0, _, _ => []
  | Nat.succ fuel, cps, rem =>
    if rem = 0 then []
    else
      let g := if cps > rem then rem else cps
      g :: batchSizesF fuel g (rem - g)

/-- Group sizes for one deposit of charge `rem` and group size `cps`.
Fuel `rem` is exact for positive `cps`; for `cps = 0` the code loop
would not terminate and the embedding returns the empty list. -/
def batchSizes (cps rem : ℕ) : List ℕ :=
  batchSizesF rem cps rem

/-- The body of the batching loop of `run` (lines 305-368) with
explicit fuel: per group, call `propagate`, build the PropagatedCharge
record, update the statistics, and continue with the advanced random
stream. -/
def depositLoopF (env : Env) (d : Deposit) (pfuel : ℕ) :
    ℕ → ℕ → ℕ → ℕ → RunStats → List PropagatedCharge × ℕ × RunStats
  | 0, _, _, idx, st => ([], idx, st)
  | Nat.succ fuel, cps, rem, idx, st =>
    if rem = 0 then ([], idx, st)
    else
      let g := if cps > rem then rem else cps
      let r := propagate env d.type d.localTime d.localPosition idx pfuel
      let rec1 : PropagatedCharge :=
        ⟨r.position, d.type, lround ((g : ℚ) * r.gain), d.localTime + r.time,
         d.globalTime + r.time, r.state⟩
      let st1 : RunStats :=
        ⟨st.total_deposits, st.deposits_exceeding_max_groups,
         st.propagated_charges_count + g,
         st.recombined_charges_count + (if r.state = CarrierState.RECOMBINED then g else 0),
         st.trapped_charges_count + (if r.state = CarrierState.TRAPPED then g else 0),
         st.step_count + 1⟩
      let rest := depositLoopF env d pfuel fuel g (rem - g) r.rngIdx st1
      (rec1 :: rest.1, rest.2.1, rest.2.2)

/-- Handling of one deposit inside `run` (lines 272-368): skip carrier
types not selected for propagation; skip deposits whose local time
exceeds the integration window; otherwise count the deposit, apply the
batcher adjustment (counting it when it fires) and run the batching
loop. -/
def processDeposit (env : Env) (pfuel : ℕ) (d : Deposit) (idx : ℕ) (st : RunStats) :
    List PropagatedCharge × ℕ × RunStats :=
  if (d.type = CarrierType.ELECTRON ∧ ¬env.propagate_electrons) ∨
     (d.type = CarrierType.HOLE ∧ ¬env.propagate_holes) then
    ([], idx, st)
  else if env.integration_time < d.localTime then
    ([], idx, st)
  else
    let st1 : RunStats :=
      ⟨st.total_deposits + 1, st.deposits_exceeding_max_groups,
       st.propagated_charges_count, st.recombined_charges_count,
       st.trapped_charges_count, st.step_count⟩
    let st2 : RunStats :=
      if 0 < env.max_charge_groups ∧ env.max_charge_groups < d.charge / env.charge_per_step
      then
        ⟨st1.total_deposits, st1.deposits_exceeding_max_groups + 1,
         st1.propagated_charges_count, st1.recombined_charges_count,
         st1.trapped_charges_count, st1.step_count⟩
      else st1
    depositLoopF env d pfuel d.charge
      (adjusted_charge_per_step env.max_charge_groups env.charge_per_step d.charge)
      d.charge idx st2

/-- The deposit loop of `run` over the whole event message. -/
def runEvent (env : Env) (pfuel : ℕ) :
    List Deposit → ℕ → RunStats → List PropagatedCharge × ℕ × RunStats
  | [], idx, st => ([], idx, st)
  | d :: ds, idx, st =>
    let r := processDeposit env pfuel d idx st
    let rest := runEvent env pfuel ds r.2.1 r.2.2
    (r.1 ++ rest.1, rest.2.1, rest.2.2)

/-- Zeroed statistics. -/
def stats0 : RunStats :=
  ⟨0, 0, 0, 0, 0, 0⟩

/-- Concrete environment for witnesses: default-like configuration,
uniform unit field along z, sensor slab |z| <= 1, all stochastic models
none, trivial integrator and random stream. -/
def testEnv : Env :=
  ⟨1 / 1000, 1 / 2, 1 / 100, 25, 1 / 4000, 1 / 40, 2,
   true, false, false, 10, 1000,
   fun _ => ⟨0, 0, 1⟩, fun _ => 0, fun _ => 0,
   fun p => decide (|p.z| ≤ 1),
   fun _ _ => 1 / 2,
   fun _ => 0,
   fun _ _ _ => 1,
   noneRecombination, noneTrapping,
   fun _ _ _ => 0,
   noneMultiplication,
   fun _ _ _ _ => ⟨0, 0⟩,
   fun _ => 0, fun _ _ => 0⟩

/-- Environment for the C3 counterexample: all stochastic models none,
integration window of length 1, first step size 1, integrator and
diffusion displacements zero, so the carrier never leaves the sensor
and the window closes after one step. -/
def envC3 : Env :=
  ⟨1 / 1000, 2, 1, 1, 1 / 4000, 1 / 40, 2,
   true, false, false, 10, 1000,
   fun _ => ⟨0, 0, 1⟩, fun _ => 0, fun _ => 0,
   fun p => decide (|p.z| ≤ 1),
   fun _ _ => 1 / 2,
   fun _ => 0,
   fun _ _ _ => 1,
   noneRecombination, noneTrapping,
   fun _ _ _ => 0,
   noneMultiplication,
   fun _ _ _ _ => ⟨0, 0⟩,
   fun _ => 0, fun _ _ => 0⟩

/-- Environment for the C4 counterexample: like `envC3` but with an
integration window of length 2 reached after two steps of size 1. -/
def envC4 : Env :=
  ⟨1 / 1000, 4, 1, 2, 1 / 4000, 1 / 40, 2,
   true, false, false, 10, 1000,
   fun _ => ⟨0, 0, 1⟩, fun _ => 0, fun _ => 0,
   fun p => decide (|p.z| ≤ 1),
   fun _ _ => 1 / 2,
   fun _ => 0,
   fun _ _ _ => 1,
   noneRecombination, noneTrapping,
   fun _ _ _ => 0,
   noneMultiplication,
   fun _ _ _ _ => ⟨0, 0⟩,
   fun _ => 0, fun _ _ => 0⟩

/-- Environment for the C5 counterexample: the integrator moves the
carrier out of the sensor slab in one step of length 2 along z while
the recombination model fires on every step. -/
def envC5 : Env :=
  ⟨1 / 1000, 4, 1, 10, 1 / 4000, 1 / 40, 2,
   true, false, false, 10, 1000,
   fun _ => ⟨0, 0, 1⟩, fun _ => 0, fun _ => 0,
   fun p => decide (|p.z| ≤ 1),
   fun _ _ => 1 / 2,
   fun _ => 0,
   fun _ _ _ => 1,
   fun _ _ _ _ => true, noneTrapping,
   fun _ _ _ => 0,
   noneMultiplication,
   fun _ _ _ _ => ⟨⟨0, 0, 2⟩, 0⟩,
   fun _ => 0, fun _ _ => 0⟩

/-- Environment for the C10 witness: like `envC5` with a slightly
different window, exercising the same overwrite of HALTED by
RECOMBINED. -/
def envC10 : Env :=
  ⟨1 / 1000, 4, 1, 9, 1 / 4000, 1 / 40, 2,
   true, false, false, 10, 1000,
   fun _ => ⟨0, 0, 1⟩, fun _ => 0, fun _ => 0,
   fun p => decide (|p.z| ≤ 1),
   fun _ _ => 1 / 2,
   fun _ => 0,
   fun _ _ _ => 1,
   fun _ _ _ _ => true, noneTrapping,
   fun _ _ _ => 0,
   noneMultiplication,
   fun _ _ _ _ => ⟨⟨0, 0, 2⟩, 0⟩,
   fun _ => 0, fun _ _ => 0⟩

/-- Environment for the C5 witness: the integrator moves the carrier
out of the sensor slab in one step of length 2 along z while all
stochastic models are none, so the loop exits HALTED. -/
def envHalt : Env :=
  ⟨1 / 1000, 4, 1, 10, 1 / 4000, 1 / 40, 2,
   true, false, false, 10, 1000,
   fun _ => ⟨0, 0, 1⟩, fun _ => 0, fun _ => 0,
   fun p => decide (|p.z| ≤ 1),
   fun _ _ => 1 / 2,
   fun _ => 0,
   fun _ _ _ => 1,
   noneRecombination, noneTrapping,
   fun _ _ _ => 0,
   noneMultiplication,
   fun _ _ _ _ => ⟨⟨0, 0, 2⟩, 0⟩,
   fun _ => 0, fun _ _ => 0⟩

/-- Environment for the C7 counterexample: timestep_start = 2 lies
outside the configured bounds [1/10, 1]; nothing in the module
validates or clamps it before the first step. -/
def envC7 : Env :=
  ⟨1 / 10, 1, 2, 25, 1 / 4000, 1 / 40, 2,
   true, false, false, 10, 1000,
   fun _ => ⟨0, 0, 1⟩, fun _ => 0, fun _ => 0,
   fun p => decide (|p.z| ≤ 1),
   fun _ _ => 1 / 2,
   fun _ => 0,
   fun _ _ _ => 1,
   noneRecombination, noneTrapping,
   fun _ _ _ => 0,
   noneMultiplication,
   fun _ _ _ _ => ⟨0, 0⟩,
   fun _ => 0, fun _ _ => 0⟩

/-- Environment for the C8 counterexample: sensor slab of full
thickness 2, target precision 1, wide step-size bounds. -/
def envC8 : Env :=
  ⟨1 / 100, 100, 1, 25, 1, 1 / 40, 2,
   true, false, false, 10, 1000,
   fun _ => ⟨0, 0, 1⟩, fun _ => 0, fun _ => 0,
   fun p => decide (|p.z| ≤ 1),
   fun _ _ => 1 / 2,
   fun _ => 0,
   fun _ _ _ => 1,
   noneRecombination, noneTrapping,
   fun _ _ _ => 0,
   noneMultiplication,
   fun _ _ _ _ => ⟨0, 0⟩,
   fun _ => 0, fun _ _ => 0⟩

end Allpix

namespace Allpix

theorem batchSizesF_rem_zero (fuel cps : ℕ) : batchSizesF fuel cps 0 = [] := by
  cases fuel <;> simp [batchSizesF]

theorem batchSizesF_eq (fuel : ℕ) : ∀ cps rem : ℕ, 0 < cps → rem ≤ fuel →
    batchSizesF fuel cps rem =
      List.replicate (rem / cps) cps ++ (if rem % cps = 0 then [] else [rem % cps]) := by
  induction fuel with
  | zero =>
    intro cps rem hc hf
    have h0 : rem = 0 := Nat.le_zero.mp hf
    subst h0
    simp [batchSizesF]
  | succ fuel ih =>
    intro cps rem hc hf
    by_cases h0 : rem = 0
    · subst h0
      simp [batchSizesF]
    · rw [batchSizesF, if_neg h0]
      by_cases hlt : cps > rem
      · simp only [if_pos hlt, Nat.sub_self, batchSizesF_rem_zero]
        have h1 : rem / cps = 0 := Nat.div_eq_of_lt hlt
        have h2 : rem % cps = rem := Nat.mod_eq_of_lt hlt
        simp [h1, h2, h0]
      · have hle : cps ≤ rem := Nat.le_of_not_lt hlt
        simp only [if_neg hlt]
        rw [ih cps (rem - cps) hc (by omega)]
        have hd : rem / cps = (rem - cps) / cps + 1 := Nat.div_eq_sub_div hc hle
        have hm : rem % cps = (rem - cps) % cps := Nat.mod_eq_sub_mod hle
        rw [hd, hm, List.replicate_succ]
        simp

theorem batchSizes_eq (cps rem : ℕ) (hc : 0 < cps) :
    batchSizes cps rem =
      List.replicate (rem / cps) cps ++ (if rem % cps = 0 then [] else [rem % cps]) :=
  batchSizesF_eq rem cps rem hc le_rfl

theorem batchSizes_sum (cps rem : ℕ) (hc : 0 < cps) :
    (batchSizes cps rem).sum = rem := by
  rw [batchSizes_eq cps rem hc]
  by_cases h : rem % cps = 0
  · rw [if_pos h]
    simp only [List.append_nil, List.sum_replicate, smul_eq_mul]
    exact Nat.div_mul_cancel (Nat.dvd_of_mod_eq_zero h)
  · rw [if_neg h]
    simp only [List.sum_append, List.sum_replicate, smul_eq_mul, List.sum_cons,
      List.sum_nil, add_zero]
    rw [mul_comm]
    exact Nat.div_add_mod rem cps

theorem batchSizes_length (cps rem : ℕ) (hc : 0 < cps) :
    (batchSizes cps rem).length = rem / cps + (if rem % cps = 0 then 0 else 1) := by
  rw [batchSizes_eq cps rem hc]
  by_cases h : rem % cps = 0 <;> simp [h]

theorem depositLoopF_length (env : Env) (d : Deposit) (pfuel : ℕ) (fuel : ℕ) :
    ∀ (cps rem idx : ℕ) (st : RunStats),
      ((depositLoopF env d pfuel fuel cps rem idx st).1).length =
        (batchSizesF fuel cps rem).length := by
  induction fuel with
  | zero => intro cps rem idx st; simp [depositLoopF, batchSizesF]
  | succ fuel ih =>
    intro cps rem idx st
    by_cases h0 : rem = 0
    · simp [depositLoopF, batchSizesF, h0]
    · simp only [depositLoopF, batchSizesF, if_neg h0, List.length_cons]
      rw [ih]

/-- Claim C1: for every processed deposit with charge C and effective
group size S > 0, the batching loop of `run` peels off groups of size S
with the last group truncated to the remainder, the group sizes sum to
exactly C, a deposit with C = 0 produces zero groups, and the batching
loop emits exactly one PropagatedCharge record per group, so the sum of
output charges before gain equals the deposited charge. -/
theorem batching_sum_exact (S C : ℕ) (hS : 0 < S) :
    batchSizes S C = List.replicate (C / S) S ++ (if C % S = 0 then [] else [C % S])
    ∧ (batchSizes S C).sum = C
    ∧ (C = 0 → batchSizes S C = [])
    ∧ ∀ (env : Env) (d : Deposit) (pfuel idx : ℕ) (st : RunStats),
        ((depositLoopF env d pfuel C S C idx st).1).length = (batchSizes S C).length := by
  refine ⟨batchSizes_eq S C hS, batchSizes_sum S C hS, ?_, ?_⟩
  · intro h
    subst h
    rfl
  · intro env d pfuel idx st
    exact depositLoopF_length env d pfuel C S C idx st

theorem batching_sum_exact_witness :
    0 < 4 ∧
    (batchSizes 4 10 = List.replicate (10 / 4) 4 ++ (if 10 % 4 = 0 then [] else [10 % 4])
     ∧ (batchSizes 4 10).sum = 10
     ∧ (10 = 0 → batchSizes 4 10 = [])
     ∧ ∀ (env : Env) (d : Deposit) (pfuel idx : ℕ) (st : RunStats),
         ((depositLoopF env d pfuel 10 4 10 idx st).1).length = (batchSizes 4 10).length) :=
  ⟨by decide, batching_sum_exact 4 10 (by decide)⟩

/-- Claim C2 counterexample: with max_charge_groups = 2, configured
group size 10 and deposit charge 25 the integer quotient 25 / 10 = 2
does not exceed the cap, so the batcher leaves the group size at 10 and
the loop produces 3 groups, exceeding the cap. -/
theorem group_cap_counterexample :
    adjusted_charge_per_step 2 10 25 = 10
    ∧ batchSizes (adjusted_charge_per_step 2 10 25) 25 = [10, 10, 5]
    ∧ ¬((batchSizes (adjusted_charge_per_step 2 10 25) 25).length ≤ 2) := by
  decide

theorem batchSizes_length_le_of_le_mul (S C m : ℕ) (hS : 0 < S) (h : C ≤ m * S) :
    (batchSizes S C).length ≤ m := by
  rw [batchSizes_length S C hS]
  have hdm := Nat.div_add_mod C S
  by_cases hmod : C % S = 0
  · rw [if_pos hmod, add_zero]
    calc C / S ≤ m * S / S := Nat.div_le_div_right h
    _ = m := Nat.mul_div_cancel m hS
  · rw [if_neg hmod]
    have hr : 0 < C % S := Nat.pos_of_ne_zero hmod
    rcases Nat.lt_or_ge (C / S) m with hq | hq
    · omega
    · exfalso
      have h1 : S * m ≤ S * (C / S) := Nat.mul_le_mul_left S hq
      rw [mul_comm] at h
      linarith [hdm]

theorem ceilDiv_le_mul (C m : ℕ) (hm : 0 < m) : C ≤ m * ceilDiv C m := by
  unfold ceilDiv
  have hdm := Nat.div_add_mod (C + m - 1) m
  have hlt : (C + m - 1) % m < m := Nat.mod_lt _ hm
  set q := (C + m - 1) / m with hq
  set r := (C + m - 1) % m with hr
  have key : m * q + r + 1 = C + m := by
    rw [hdm]
    omega
  linarith

/-- Claim C2 amended: when max_charge_groups m is nonzero the batcher
raises the group size to ceil(C / m) exactly when the integer quotient
C / S exceeds m, and then the number of groups is at most m; when the
adjustment does not fire the number of groups can still reach m + 1
(the integer quotient hides a truncated final group) but never more. -/
theorem group_cap_amended (C S m : ℕ) (hS : 0 < S) (hm : 0 < m) :
    (m < C / S →
      adjusted_charge_per_step m S C = ceilDiv C m ∧
      (batchSizes (adjusted_charge_per_step m S C) C).length ≤ m)
    ∧ (batchSizes (adjusted_charge_per_step m S C) C).length ≤ m + 1 := by
  by_cases htrig : m < C / S
  · have hC : S ≤ C := by
      by_contra hCS
      have : C / S = 0 := Nat.div_eq_of_lt (by omega)
      omega
    have hCpos : 0 < C := by omega
    have hadj : adjusted_charge_per_step m S C = ceilDiv C m := by
      unfold adjusted_charge_per_step
      rw [if_pos ⟨hm, htrig⟩]
    have hS' : 0 < ceilDiv C m := by
      unfold ceilDiv
      exact Nat.div_pos (by omega) hm
    have hlen : (batchSizes (ceilDiv C m) C).length ≤ m :=
      batchSizes_length_le_of_le_mul (ceilDiv C m) C m hS' (ceilDiv_le_mul C m hm)
    refine ⟨fun _ => ⟨hadj, ?_⟩, ?_⟩
    · rw [hadj]; exact hlen
    · rw [hadj]; omega
  · have hadj : adjusted_charge_per_step m S C = S := by
      unfold adjusted_charge_per_step
      rw [if_neg (by intro h; exact htrig h.2)]
    refine ⟨fun h => absurd h htrig, ?_⟩
    rw [hadj, batchSizes_length S C hS]
    have hle : C / S ≤ m := Nat.le_of_not_lt htrig
    by_cases hmod : C % S = 0 <;> simp [hmod] <;> omega

theorem group_cap_amended_witness :
    0 < 10 ∧ 0 < 100 ∧
    ((100 < 5000 / 10 →
       adjusted_charge_per_step 100 10 5000 = ceilDiv 5000 100 ∧
       (batchSizes (adjusted_charge_per_step 100 10 5000) 5000).length ≤ 100)
     ∧ (batchSizes (adjusted_charge_per_step 100 10 5000) 5000).length ≤ 100 + 1) :=
  ⟨by decide, by decide, group_cap_amended 5000 10 100 (by decide) (by decide)⟩

theorem Vec3.add_mk (a b : Vec3) : a + b = ⟨a.x + b.x, a.y + b.y, a.z + b.z⟩ := rfl

theorem Vec3.sub_mk (a b : Vec3) : a - b = ⟨a.x - b.x, a.y - b.y, a.z - b.z⟩ := rfl

theorem Vec3.smul_mk (c : ℚ) (v : Vec3) : c • v = ⟨c * v.x, c * v.y, c * v.z⟩ := rfl

theorem Vec3.div_mk (v : Vec3) (c : ℚ) : v / c = ⟨v.x / c, v.y / c, v.z / c⟩ := rfl

theorem Vec3.zero_mk : (0 : Vec3) = ⟨0, 0, 0⟩ := rfl

theorem Vec3.zero_x : (0 : Vec3).x = 0 := rfl

theorem Vec3.zero_y : (0 : Vec3).y = 0 := rfl

theorem Vec3.zero_z : (0 : Vec3).z = 0 := rfl

theorem state_halted_ne_motion : CarrierState.HALTED ≠ CarrierState.MOTION := by decide

theorem state_recombined_ne_motion : CarrierState.RECOMBINED ≠ CarrierState.MOTION := by
  decide

theorem state_trapped_ne_motion : CarrierState.TRAPPED ≠ CarrierState.MOTION := by decide

theorem state_motion_ne_halted : CarrierState.MOTION ≠ CarrierState.HALTED := by decide

theorem state_recombined_ne_halted : CarrierState.RECOMBINED ≠ CarrierState.HALTED := by
  decide

theorem state_trapped_ne_halted : CarrierState.TRAPPED ≠ CarrierState.HALTED := by decide

/-- Claim C6: with no magnetic field the dispatched velocity evaluator
is exactly sign(type) * mobility(type, |E|, doping) * E, and the
with-field lambda agrees term by term with the Hall-correction block of
the spec, the carrier sign appearing inside term1 and again on the
outer product. -/
theorem velocity_formula (env : Env) (type : CarrierType) (pos : Vec3) :
    (env.has_magnetic_field = false →
      carrier_velocity env type pos = spec_velocity_noB env type pos)
    ∧ carrier_velocity_withB env type pos = spec_velocity_withB env type pos := by
  constructor
  · intro h
    rw [carrier_velocity, h]
    rfl
  · apply Vec3.ext <;>
      simp only [carrier_velocity_withB, spec_velocity_withB, Vec3.add_mk, Vec3.sub_mk,
        Vec3.smul_mk, Vec3.div_mk, Vec3.cross, Vec3.dot] <;>
      ring

theorem velocity_formula_witness :
    testEnv.has_magnetic_field = false
    ∧ ((testEnv.has_magnetic_field = false →
         carrier_velocity testEnv CarrierType.ELECTRON ⟨0, 0, 0⟩ =
           spec_velocity_noB testEnv CarrierType.ELECTRON ⟨0, 0, 0⟩)
       ∧ carrier_velocity_withB testEnv CarrierType.ELECTRON ⟨0, 0, 0⟩ =
           spec_velocity_withB testEnv CarrierType.ELECTRON ⟨0, 0, 0⟩) :=
  ⟨rfl, velocity_formula testEnv CarrierType.ELECTRON ⟨0, 0, 0⟩⟩

theorem clampStep_mem (env : Env) (h : env.timestep_min ≤ env.timestep_max) (t : ℚ) :
    env.timestep_min ≤ clampStep env t ∧ clampStep env t ≤ env.timestep_max := by
  unfold clampStep
  split_ifs <;> constructor <;> linarith

theorem adaptTimestep_mem (env : Env) (h : env.timestep_min ≤ env.timestep_max)
    (timestep uncertainty stepZ posZ : ℚ) :
    env.timestep_min ≤ adaptTimestep env timestep uncertainty stepZ posZ
    ∧ adaptTimestep env timestep uncertainty stepZ posZ ≤ env.timestep_max :=
  clampStep_mem env h _

/-- Claim C7 counterexample: nothing validates or clamps
timestep_start, so with timestep_start = 2 and bounds [1/10, 1] the
very first integration step starts with (and consumes in full) a step
size outside the bounds, while the loop guard does admit that first
step. -/
theorem stepsize_first_step_counterexample :
    (initState envC7 ⟨0, 0, 0⟩ 0).dt = 2
    ∧ ((initState envC7 ⟨0, 0, 0⟩ 0).state = CarrierState.MOTION
       ∧ 0 + (initState envC7 ⟨0, 0, 0⟩ 0).time < envC7.integration_time)
    ∧ (propStep envC7 CarrierType.ELECTRON 0 (initState envC7 ⟨0, 0, 0⟩ 0)).time = 2
    ∧ ¬(envC7.timestep_min ≤ 2 ∧ (2 : ℚ) ≤ envC7.timestep_max) := by
  norm_num [initState, propStep, stepRK, stepPosition, stepEfield, stepRecombines,
    stepTrapping, stepDetrapTime, carrier_diffusion, adaptTimestep, clampStep,
    Env.vnorm, Vec3.normSq, Vec3.add_mk, Vec3.smul_mk, Vec3.zero_mk, Vec3.zero_x, Vec3.zero_y, Vec3.zero_z, envC7,
    noneRecombination, noneTrapping, noneMultiplication,
      state_halted_ne_motion, state_recombined_ne_motion, state_trapped_ne_motion, state_motion_ne_halted, state_recombined_ne_halted, state_trapped_ne_halted]

theorem propStep_dt (env : Env) (type : CarrierType) (t0 : ℚ) (s : PropState) :
    (propStep env type t0 s).dt =
      adaptTimestep env s.dt (env.vnorm (stepRK env type s).error)
        (stepRK env type s).value.z (stepPosition env type s).z := by
  unfold propStep
  split_ifs <;> rfl

/-- Claim C7 amended: after every adaptation the step size is clamped
into [timestep_min, timestep_max] (whenever that interval is
nonempty), so each step after the first starts within the bounds; the
first step instead starts with the unclamped timestep_start, which lies
within the bounds only when configured so. -/
theorem stepsize_bounds_after_adaptation (env : Env) (type : CarrierType)
    (t0 : ℚ) (s : PropState) (pos : Vec3) (idx : ℕ)
    (h : env.timestep_min ≤ env.timestep_max) :
    env.timestep_min ≤ (propStep env type t0 s).dt
    ∧ (propStep env type t0 s).dt ≤ env.timestep_max
    ∧ (initState env pos idx).dt = env.timestep_start := by
  have hb := adaptTimestep_mem env h s.dt (env.vnorm (stepRK env type s).error)
    (stepRK env type s).value.z (stepPosition env type s).z
  refine ⟨?_, ?_, rfl⟩
  · rw [propStep_dt]
    exact hb.1
  · rw [propStep_dt]
    exact hb.2

theorem stepsize_bounds_witness :
    testEnv.timestep_min ≤ testEnv.timestep_max
    ∧ (testEnv.timestep_min ≤
         (propStep testEnv CarrierType.ELECTRON 0 (initState testEnv ⟨0, 0, 0⟩ 0)).dt
       ∧ (propStep testEnv CarrierType.ELECTRON 0 (initState testEnv ⟨0, 0, 0⟩ 0)).dt ≤
           testEnv.timestep_max
       ∧ (initState testEnv ⟨0, 0, 0⟩ 0).dt = testEnv.timestep_start) :=
  ⟨by norm_num [testEnv],
   stepsize_bounds_after_adaptation testEnv CarrierType.ELECTRON 0
     (initState testEnv ⟨0, 0, 0⟩ 0) ⟨0, 0, 0⟩ 0 (by norm_num [testEnv])⟩

/-- Claim C8 counterexample: the position z = -1 sits exactly on the
bottom sensor face of the slab of envC8 (full thickness 2), well within
two step-lengths of a sensor boundary along the drift axis for a step
with z component 1/10, and the error norm 3/5 lies in the unchanged
band of the rule; the code leaves the step size at 1 instead of
multiplying by 0.75, because line 583 tests only the top face. -/
theorem adapt_rule_counterexample :
    |(-(envC8.sensorSizeZ) / 2) - (-1)| < 2 * (1 / 10)
    ∧ ¬(3 / 5 > envC8.target_spatial_precision)
    ∧ ¬((3 / 5 : ℚ) < envC8.target_spatial_precision / 2)
    ∧ adaptTimestep envC8 1 (3 / 5) (1 / 10) (-1) = 1
    ∧ (1 : ℚ) ≠ 1 * 0.75 := by
  norm_num [adaptTimestep, clampStep, envC8]

/-- Claim C8 amended: the exact adaptation rule of lines 579-598
multiplies the step size by 0.75 when |sensorSize.z/2 - z| <
2 * step.value.z, a proximity test against the top face only, compared
with the signed z component of the step rather than a distance to any
boundary; otherwise it multiplies by 0.75 when the error norm exceeds
the target precision, by 1.5 when twice the error norm is below the
target precision, and leaves it unchanged otherwise; the result is then
clamped into [timestep_min, timestep_max]. -/
theorem adapt_rule_amended (env : Env) (timestep uncertainty stepZ posZ : ℚ)
    (h : env.timestep_min ≤ env.timestep_max) :
    (|env.sensorSizeZ / 2 - posZ| < 2 * stepZ →
       adaptTimestep env timestep uncertainty stepZ posZ = clampStep env (timestep * 0.75))
    ∧ (¬(|env.sensorSizeZ / 2 - posZ| < 2 * stepZ) →
       uncertainty > env.target_spatial_precision →
       adaptTimestep env timestep uncertainty stepZ posZ = clampStep env (timestep * 0.75))
    ∧ (¬(|env.sensorSizeZ / 2 - posZ| < 2 * stepZ) →
       ¬(uncertainty > env.target_spatial_precision) →
       2 * uncertainty < env.target_spatial_precision →
       adaptTimestep env timestep uncertainty stepZ posZ = clampStep env (timestep * 1.5))
    ∧ (¬(|env.sensorSizeZ / 2 - posZ| < 2 * stepZ) →
       ¬(uncertainty > env.target_spatial_precision) →
       ¬(2 * uncertainty < env.target_spatial_precision) →
       adaptTimestep env timestep uncertainty stepZ posZ = clampStep env timestep)
    ∧ env.timestep_min ≤ adaptTimestep env timestep uncertainty stepZ posZ
    ∧ adaptTimestep env timestep uncertainty stepZ posZ ≤ env.timestep_max := by
  have hb := adaptTimestep_mem env h timestep uncertainty stepZ posZ
  refine ⟨?_, ?_, ?_, ?_, hb.1, hb.2⟩ <;> intros <;> unfold adaptTimestep <;> split_ifs <;> rfl

theorem adapt_rule_amended_witness :
    envC8.timestep_min ≤ envC8.timestep_max
    ∧ ((|envC8.sensorSizeZ / 2 - (-1)| < 2 * (1 / 10) →
          adaptTimestep envC8 1 (3 / 5) (1 / 10) (-1) = clampStep envC8 (1 * 0.75))
       ∧ (¬(|envC8.sensorSizeZ / 2 - (-1)| < 2 * (1 / 10)) →
          3 / 5 > envC8.target_spatial_precision →
          adaptTimestep envC8 1 (3 / 5) (1 / 10) (-1) = clampStep envC8 (1 * 0.75))
       ∧ (¬(|envC8.sensorSizeZ / 2 - (-1)| < 2 * (1 / 10)) →
          ¬(3 / 5 > envC8.target_spatial_precision) →
          2 * (3 / 5) < envC8.target_spatial_precision →
          adaptTimestep envC8 1 (3 / 5) (1 / 10) (-1) = clampStep envC8 (1 * 1.5))
       ∧ (¬(|envC8.sensorSizeZ / 2 - (-1)| < 2 * (1 / 10)) →
          ¬(3 / 5 > envC8.target_spatial_precision) →
          ¬(2 * (3 / 5) < envC8.target_spatial_precision) →
          adaptTimestep envC8 1 (3 / 5) (1 / 10) (-1) = clampStep envC8 1)
       ∧ envC8.timestep_min ≤ adaptTimestep envC8 1 (3 / 5) (1 / 10) (-1)
       ∧ adaptTimestep envC8 1 (3 / 5) (1 / 10) (-1) ≤ envC8.timestep_max) :=
  ⟨by norm_num [envC8], adapt_rule_amended envC8 1 (3 / 5) (1 / 10) (-1) (by norm_num [envC8])⟩

theorem propStep_state_eq (env : Env) (type : CarrierType) (t0 : ℚ) (s : PropState) :
    (propStep env type t0 s).state =
      if stepTrapping env type s
         ∧ ¬(t0 + (s.time + s.dt) + stepDetrapTime env type s < env.integration_time)
      then CarrierState.TRAPPED
      else if stepRecombines env type s then CarrierState.RECOMBINED
      else if env.isWithinSensor (stepPosition env type s) then s.state
      else CarrierState.HALTED := by
  simp only [propStep]
  split_ifs <;> first | rfl | tauto

theorem propStep_gain_eq (env : Env) (type : CarrierType) (t0 : ℚ) (s : PropState) :
    (propStep env type t0 s).gain =
      s.gain * env.multiplication type
        ((env.vnorm (stepEfield env type s) + env.vnorm s.efield) / 2)
        (env.vnorm (stepRK env type s).value) := by
  unfold propStep
  split_ifs <;> rfl

theorem propStep_position_eq (env : Env) (type : CarrierType) (t0 : ℚ) (s : PropState) :
    (propStep env type t0 s).position = stepPosition env type s
    ∧ (propStep env type t0 s).last_position = s.position := by
  unfold propStep
  split_ifs <;> exact ⟨rfl, rfl⟩

theorem propStep_motion_within (env : Env) (type : CarrierType) (t0 : ℚ) (s : PropState)
    (h : (propStep env type t0 s).state = CarrierState.MOTION) :
    s.state = CarrierState.MOTION
    ∧ env.isWithinSensor (stepPosition env type s) = true := by
  rw [propStep_state_eq] at h
  split_ifs at h <;> simp_all

theorem propStep_halted_not_within (env : Env) (type : CarrierType) (t0 : ℚ) (s : PropState)
    (hs : s.state = CarrierState.MOTION)
    (h : (propStep env type t0 s).state = CarrierState.HALTED) :
    env.isWithinSensor (stepPosition env type s) = false := by
  rw [propStep_state_eq] at h
  split_ifs at h <;> simp_all

theorem propStep_state_none (env : Env) (hr : env.recombination = noneRecombination)
    (ht : env.trapping = noneTrapping) (type : CarrierType) (t0 : ℚ) (s : PropState) :
    (propStep env type t0 s).state = s.state
    ∨ (propStep env type t0 s).state = CarrierState.HALTED := by
  have h1 : stepTrapping env type s = false := by
    simp [stepTrapping, ht, noneTrapping]
  have h2 : stepRecombines env type s = false := by
    simp [stepRecombines, hr, noneRecombination]
  rw [propStep_state_eq]
  rw [if_neg (by simp [h1])]
  rw [if_neg (by simp [h2])]
  split_ifs
  · exact Or.inl rfl
  · exact Or.inr rfl

theorem propStep_gain_none (env : Env) (hm : env.multiplication = noneMultiplication)
    (type : CarrierType) (t0 : ℚ) (s : PropState) :
    (propStep env type t0 s).gain = s.gain := by
  rw [propStep_gain_eq, hm]
  simp [noneMultiplication,
      state_halted_ne_motion, state_recombined_ne_motion, state_trapped_ne_motion, state_motion_ne_halted, state_recombined_ne_halted, state_trapped_ne_halted]

theorem propagateLoop_none (env : Env) (hr : env.recombination = noneRecombination)
    (ht : env.trapping = noneTrapping) (hm : env.multiplication = noneMultiplication)
    (type : CarrierType) (t0 : ℚ) :
    ∀ (fuel : ℕ) (s : PropState),
      s.state = CarrierState.MOTION ∨ s.state = CarrierState.HALTED →
      (propagateLoop env type t0 fuel s).gain = s.gain
      ∧ ((propagateLoop env type t0 fuel s).state = CarrierState.MOTION
         ∨ (propagateLoop env type t0 fuel s).state = CarrierState.HALTED) := by
  intro fuel
  induction fuel with
  | zero => intro s hs; exact ⟨rfl, hs⟩
  | succ fuel ih =>
    intro s hs
    rw [propagateLoop]
    split_ifs with hguard
    · have hstate := propStep_state_none env hr ht type t0 s
      have hs' : (propStep env type t0 s).state = CarrierState.MOTION
          ∨ (propStep env type t0 s).state = CarrierState.HALTED := by
        rcases hstate with h | h
        · rw [h]; exact hs
        · exact Or.inr h
      obtain ⟨hg, hst⟩ := ih (propStep env type t0 s) hs'
      refine ⟨?_, hst⟩
      rw [hg, propStep_gain_none env hm type t0 s]
    · exact ⟨rfl, hs⟩

/-- Claim C3 counterexample: in `envC3` every model is none and the
integrator and diffusion never move the carrier, so the integration
window (length 1) closes after one step of size 1 with the carrier
still inside the sensor; `propagate` then returns state MOTION with
gain 1 for this position, carrier type, initial time and random
stream, not the claimed HALTED. -/
theorem none_models_counterexample :
    envC3.recombination = noneRecombination
    ∧ envC3.trapping = noneTrapping
    ∧ envC3.multiplication = noneMultiplication
    ∧ (propagate envC3 CarrierType.ELECTRON 0 ⟨0, 0, 0⟩ 0 5).gain = 1
    ∧ (propagate envC3 CarrierType.ELECTRON 0 ⟨0, 0, 0⟩ 0 5).state = CarrierState.MOTION
    ∧ CarrierState.MOTION ≠ CarrierState.HALTED := by
  refine ⟨rfl, rfl, rfl, ?_, ?_, by decide⟩ <;>
    norm_num [propagate, loopResult, propagateLoop, propStep, initState, stepRK,
      stepPosition, stepEfield, stepRecombines, stepTrapping, stepDetrapTime,
      carrier_diffusion, adaptTimestep, clampStep, getSensorIntercept, Env.vnorm,
      Vec3.normSq, Vec3.add_mk, Vec3.smul_mk, Vec3.sub_mk, Vec3.zero_mk,
      Vec3.zero_x, Vec3.zero_y, Vec3.zero_z, envC3,
      noneRecombination, noneTrapping, noneMultiplication,
      state_halted_ne_motion, state_recombined_ne_motion, state_trapped_ne_motion, state_motion_ne_halted, state_recombined_ne_halted, state_trapped_ne_halted]

/-- Claim C3 amended: with recombination_model, trapping_model and
multiplication_model all none (detrapping is then never consulted) the
cumulative gain is exactly 1 and the only states `propagate` can return
are HALTED (the carrier left the sensor) and MOTION (the integration
window closed, or the fuel of the embedding ran out, with the carrier
still inside); RECOMBINED and TRAPPED are impossible, but HALTED is not
guaranteed. -/
theorem none_models_amended (env : Env)
    (hr : env.recombination = noneRecombination)
    (ht : env.trapping = noneTrapping)
    (hm : env.multiplication = noneMultiplication)
    (type : CarrierType) (t0 : ℚ) (pos : Vec3) (idx fuel : ℕ) :
    (propagate env type t0 pos idx fuel).gain = 1
    ∧ ((propagate env type t0 pos idx fuel).state = CarrierState.MOTION
       ∨ (propagate env type t0 pos idx fuel).state = CarrierState.HALTED)
    ∧ (propagate env type t0 pos idx fuel).state ≠ CarrierState.RECOMBINED
    ∧ (propagate env type t0 pos idx fuel).state ≠ CarrierState.TRAPPED := by
  have h := propagateLoop_none env hr ht hm type t0 fuel (initState env pos idx)
    (Or.inl rfl)
  have hgain : (propagate env type t0 pos idx fuel).gain =
      (propagateLoop env type t0 fuel (initState env pos idx)).gain := rfl
  have hstate : (propagate env type t0 pos idx fuel).state =
      (propagateLoop env type t0 fuel (initState env pos idx)).state := rfl
  refine ⟨?_, ?_, ?_, ?_⟩
  · rw [hgain, h.1]; exact rfl
  · rw [hstate]; exact h.2
  · rw [hstate]; rcases h.2 with h2 | h2 <;> rw [h2] <;> decide
  · rw [hstate]; rcases h.2 with h2 | h2 <;> rw [h2] <;> decide

theorem none_models_amended_witness :
    testEnv.recombination = noneRecombination
    ∧ testEnv.trapping = noneTrapping
    ∧ testEnv.multiplication = noneMultiplication
    ∧ ((propagate testEnv CarrierType.ELECTRON 0 ⟨0, 0, 0⟩ 0 2).gain = 1
       ∧ ((propagate testEnv CarrierType.ELECTRON 0 ⟨0, 0, 0⟩ 0 2).state = CarrierState.MOTION
          ∨ (propagate testEnv CarrierType.ELECTRON 0 ⟨0, 0, 0⟩ 0 2).state = CarrierState.HALTED)
       ∧ (propagate testEnv CarrierType.ELECTRON 0 ⟨0, 0, 0⟩ 0 2).state ≠ CarrierState.RECOMBINED
       ∧ (propagate testEnv CarrierType.ELECTRON 0 ⟨0, 0, 0⟩ 0 2).state ≠ CarrierState.TRAPPED) :=
  ⟨rfl, rfl, rfl,
   none_models_amended testEnv rfl rfl rfl CarrierType.ELECTRON 0 ⟨0, 0, 0⟩ 0 2⟩

/-- Claim C4 counterexample: in `envC4` the window (length 2) expires
with the carrier still inside; `propagate` returns the transient state
MOTION, the PropagatedCharge record built by the batching loop stores
MOTION, and only the line-graph record receives UNKNOWN. -/
theorem unknown_state_counterexample :
    (propagate envC4 CarrierType.ELECTRON 0 ⟨0, 0, 0⟩ 0 5).state = CarrierState.MOTION
    ∧ plotFinalState envC4 (loopResult envC4 CarrierType.ELECTRON 0 ⟨0, 0, 0⟩ 0 5) =
        CarrierState.UNKNOWN
    ∧ ((processDeposit envC4 5 ⟨⟨0, 0, 0⟩, 0, 0, CarrierType.ELECTRON, 1⟩ 0 stats0).1.map
         PropagatedCharge.state) = [CarrierState.MOTION]
    ∧ CarrierState.MOTION ≠ CarrierState.UNKNOWN := by
  refine ⟨?_, ?_, ?_, by decide⟩ <;>
    norm_num [propagate, loopResult, propagateLoop, propStep, initState, stepRK,
      stepPosition, stepEfield, stepRecombines, stepTrapping, stepDetrapTime,
      carrier_diffusion, adaptTimestep, clampStep, getSensorIntercept, Env.vnorm,
      Vec3.normSq, Vec3.add_mk, Vec3.smul_mk, Vec3.sub_mk, Vec3.zero_mk,
      Vec3.zero_x, Vec3.zero_y, Vec3.zero_z, envC4,
      noneRecombination, noneTrapping, noneMultiplication, plotFinalState,
      processDeposit, depositLoopF, adjusted_charge_per_step, ceilDiv, lround,
      stats0] <;> decide

/-- Claim C4 amended: the UNKNOWN mapping of lines 610-617 applies only
to the final state stored in the line-graph diagnostic record; the
state returned by `propagate` and stored in the PropagatedCharge output
record is the raw loop state, which is the transient MOTION whenever
the stepping loop ends by reaching the integration window. -/
theorem unknown_only_linegraph (env : Env) (type : CarrierType) (t0 : ℚ) (pos : Vec3)
    (idx fuel : ℕ)
    (hs : (loopResult env type t0 pos idx fuel).state = CarrierState.MOTION)
    (hT : env.integration_time ≤ (loopResult env type t0 pos idx fuel).time) :
    (propagate env type t0 pos idx fuel).state = CarrierState.MOTION
    ∧ plotFinalState env (loopResult env type t0 pos idx fuel) = CarrierState.UNKNOWN := by
  constructor
  · exact hs
  · unfold plotFinalState
    rw [if_pos (Or.inl hT)]

theorem unknown_only_linegraph_witness :
    (loopResult envC4 CarrierType.ELECTRON 0 ⟨0, 0, 0⟩ 0 5).state = CarrierState.MOTION
    ∧ envC4.integration_time ≤ (loopResult envC4 CarrierType.ELECTRON 0 ⟨0, 0, 0⟩ 0 5).time
    ∧ ((propagate envC4 CarrierType.ELECTRON 0 ⟨0, 0, 0⟩ 0 5).state = CarrierState.MOTION
       ∧ plotFinalState envC4 (loopResult envC4 CarrierType.ELECTRON 0 ⟨0, 0, 0⟩ 0 5) =
           CarrierState.UNKNOWN) :=
  ⟨by norm_num [loopResult, propagateLoop, propStep, initState, stepRK, stepPosition,
      stepEfield, stepRecombines, stepTrapping, stepDetrapTime, carrier_diffusion,
      adaptTimestep, clampStep, Env.vnorm, Vec3.normSq, Vec3.add_mk, Vec3.smul_mk,
      Vec3.sub_mk, Vec3.zero_mk, Vec3.zero_x, Vec3.zero_y, Vec3.zero_z, envC4,
      noneRecombination, noneTrapping, noneMultiplication,
      state_halted_ne_motion, state_recombined_ne_motion, state_trapped_ne_motion, state_motion_ne_halted, state_recombined_ne_halted, state_trapped_ne_halted],
   by norm_num [loopResult, propagateLoop, propStep, initState, stepRK, stepPosition,
      stepEfield, stepRecombines, stepTrapping, stepDetrapTime, carrier_diffusion,
      adaptTimestep, clampStep, Env.vnorm, Vec3.normSq, Vec3.add_mk, Vec3.smul_mk,
      Vec3.sub_mk, Vec3.zero_mk, Vec3.zero_x, Vec3.zero_y, Vec3.zero_z, envC4,
      noneRecombination, noneTrapping, noneMultiplication,
      state_halted_ne_motion, state_recombined_ne_motion, state_trapped_ne_motion, state_motion_ne_halted, state_recombined_ne_halted, state_trapped_ne_halted],
   unknown_only_linegraph envC4 CarrierType.ELECTRON 0 ⟨0, 0, 0⟩ 0 5
     (by norm_num [loopResult, propagateLoop, propStep, initState, stepRK, stepPosition,
        stepEfield, stepRecombines, stepTrapping, stepDetrapTime, carrier_diffusion,
        adaptTimestep, clampStep, Env.vnorm, Vec3.normSq, Vec3.add_mk, Vec3.smul_mk,
        Vec3.sub_mk, Vec3.zero_mk, Vec3.zero_x, Vec3.zero_y, Vec3.zero_z, envC4,
        noneRecombination, noneTrapping, noneMultiplication,
      state_halted_ne_motion, state_recombined_ne_motion, state_trapped_ne_motion, state_motion_ne_halted, state_recombined_ne_halted, state_trapped_ne_halted])
     (by norm_num [loopResult, propagateLoop, propStep, initState, stepRK, stepPosition,
        stepEfield, stepRecombines, stepTrapping, stepDetrapTime, carrier_diffusion,
        adaptTimestep, clampStep, Env.vnorm, Vec3.normSq, Vec3.add_mk, Vec3.smul_mk,
        Vec3.sub_mk, Vec3.zero_mk, Vec3.zero_x, Vec3.zero_y, Vec3.zero_z, envC4,
        noneRecombination, noneTrapping, noneMultiplication,
      state_halted_ne_motion, state_recombined_ne_motion, state_trapped_ne_motion, state_motion_ne_halted, state_recombined_ne_halted, state_trapped_ne_halted])⟩

theorem propagateLoop_halted (env : Env) (type : CarrierType) (t0 : ℚ) :
    ∀ (fuel : ℕ) (s : PropState),
      (s.state = CarrierState.MOTION → env.isWithinSensor s.position = true) →
      (s.state = CarrierState.HALTED →
        env.isWithinSensor s.position = false
        ∧ env.isWithinSensor s.last_position = true) →
      (propagateLoop env type t0 fuel s).state = CarrierState.HALTED →
      env.isWithinSensor (propagateLoop env type t0 fuel s).position = false
      ∧ env.isWithinSensor (propagateLoop env type t0 fuel s).last_position = true := by
  intro fuel
  induction fuel with
  | zero => intro s h1 h2 hH; exact h2 hH
  | succ fuel ih =>
    intro s h1 h2 hH
    rw [propagateLoop] at hH ⊢
    split_ifs at hH ⊢ with hguard
    · refine ih (propStep env type t0 s) ?_ ?_ hH
      · intro hm
        rw [(propStep_position_eq env type t0 s).1]
        exact (propStep_motion_within env type t0 s hm).2
      · intro hh
        constructor
        · rw [(propStep_position_eq env type t0 s).1]
          exact propStep_halted_not_within env type t0 s hguard.1 hh
        · rw [(propStep_position_eq env type t0 s).2]
          exact h1 hguard.1
    · exact h2 hH

/-- Claim C5 amended: when the stepping loop of a carrier group started
inside the sensor terminates in state HALTED (the containment check
fired and no same-step recombination or trapping decision overrode it),
`propagate` returns HALTED and replaces the final position by the
sensor intercept of the segment from the last saved position (interior)
to the current position (exterior), a boundary point strictly between
the two samples; a group whose position leaves the sensor but whose
recombination or trapping test fires in the same step is reported
RECOMBINED or TRAPPED instead, with no intercept replacement. -/
theorem halted_intercept_amended (env : Env) (type : CarrierType) (t0 : ℚ) (pos : Vec3)
    (idx fuel : ℕ)
    (hpos : env.isWithinSensor pos = true)
    (hT : ∀ p q : Vec3, env.isWithinSensor p = true → env.isWithinSensor q = false →
      0 < env.interceptT p q ∧ env.interceptT p q < 1)
    (hH : (loopResult env type t0 pos idx fuel).state = CarrierState.HALTED) :
    (propagate env type t0 pos idx fuel).state = CarrierState.HALTED
    ∧ env.isWithinSensor (loopResult env type t0 pos idx fuel).last_position = true
    ∧ env.isWithinSensor (loopResult env type t0 pos idx fuel).position = false
    ∧ (propagate env type t0 pos idx fuel).position =
        getSensorIntercept env (loopResult env type t0 pos idx fuel).last_position
          (loopResult env type t0 pos idx fuel).position
    ∧ ∃ t : ℚ, 0 < t ∧ t < 1 ∧
        (propagate env type t0 pos idx fuel).position =
          (loopResult env type t0 pos idx fuel).last_position +
            t • ((loopResult env type t0 pos idx fuel).position -
              (loopResult env type t0 pos idx fuel).last_position) := by
  obtain ⟨hout, hin⟩ := propagateLoop_halted env type t0 fuel (initState env pos idx)
    (fun _ => hpos) (fun h => by simp [initState] at h) hH
  have hppos : (propagate env type t0 pos idx fuel).position =
      getSensorIntercept env (loopResult env type t0 pos idx fuel).last_position
        (loopResult env type t0 pos idx fuel).position := by
    simp only [propagate]
    rw [if_pos hH]
  obtain ⟨ht0, ht1⟩ := hT _ _ hin hout
  exact ⟨hH, hin, hout, hppos,
    env.interceptT (loopResult env type t0 pos idx fuel).last_position
      (loopResult env type t0 pos idx fuel).position,
    ht0, ht1, by rw [hppos]; rfl⟩

/-- Claim C5 counterexample: in `envC5` the carrier starts inside the
sensor and the integrator moves it outside in the first step, so the
group exits the sensor volume; but the recombination test fires in the
same step, the state HALTED set by the containment check is overwritten
to RECOMBINED, no intercept is computed, and `propagate` returns the
raw exterior position. -/
theorem halted_intercept_counterexample :
    envC5.isWithinSensor ⟨0, 0, 0⟩ = true
    ∧ (propagate envC5 CarrierType.ELECTRON 0 ⟨0, 0, 0⟩ 0 3).state = CarrierState.RECOMBINED
    ∧ CarrierState.RECOMBINED ≠ CarrierState.HALTED
    ∧ (propagate envC5 CarrierType.ELECTRON 0 ⟨0, 0, 0⟩ 0 3).position = ⟨0, 0, 2⟩
    ∧ envC5.isWithinSensor ⟨0, 0, 2⟩ = false := by
  refine ⟨?_, ?_, by decide, ?_, ?_⟩ <;>
    norm_num [propagate, loopResult, propagateLoop, propStep, initState, stepRK,
      stepPosition, stepEfield, stepRecombines, stepTrapping, stepDetrapTime,
      carrier_diffusion, adaptTimestep, clampStep, getSensorIntercept, Env.vnorm,
      Vec3.normSq, Vec3.add_mk, Vec3.smul_mk, Vec3.sub_mk, Vec3.zero_mk,
      Vec3.zero_x, Vec3.zero_y, Vec3.zero_z, envC5, noneTrapping,
      noneMultiplication,
      state_halted_ne_motion, state_recombined_ne_motion, state_trapped_ne_motion, state_motion_ne_halted, state_recombined_ne_halted, state_trapped_ne_halted]

theorem halted_intercept_witness :
    envHalt.isWithinSensor ⟨0, 0, 0⟩ = true
    ∧ (∀ p q : Vec3, envHalt.isWithinSensor p = true → envHalt.isWithinSensor q = false →
        0 < envHalt.interceptT p q ∧ envHalt.interceptT p q < 1)
    ∧ (loopResult envHalt CarrierType.ELECTRON 0 ⟨0, 0, 0⟩ 0 3).state = CarrierState.HALTED
    ∧ ((propagate envHalt CarrierType.ELECTRON 0 ⟨0, 0, 0⟩ 0 3).state = CarrierState.HALTED
       ∧ envHalt.isWithinSensor
           (loopResult envHalt CarrierType.ELECTRON 0 ⟨0, 0, 0⟩ 0 3).last_position = true
       ∧ envHalt.isWithinSensor
           (loopResult envHalt CarrierType.ELECTRON 0 ⟨0, 0, 0⟩ 0 3).position = false
       ∧ (propagate envHalt CarrierType.ELECTRON 0 ⟨0, 0, 0⟩ 0 3).position =
           getSensorIntercept envHalt
             (loopResult envHalt CarrierType.ELECTRON 0 ⟨0, 0, 0⟩ 0 3).last_position
             (loopResult envHalt CarrierType.ELECTRON 0 ⟨0, 0, 0⟩ 0 3).position
       ∧ ∃ t : ℚ, 0 < t ∧ t < 1 ∧
           (propagate envHalt CarrierType.ELECTRON 0 ⟨0, 0, 0⟩ 0 3).position =
             (loopResult envHalt CarrierType.ELECTRON 0 ⟨0, 0, 0⟩ 0 3).last_position +
               t • ((loopResult envHalt CarrierType.ELECTRON 0 ⟨0, 0, 0⟩ 0 3).position -
                 (loopResult envHalt CarrierType.ELECTRON 0 ⟨0, 0, 0⟩ 0 3).last_position)) :=
  ⟨by norm_num [envHalt],
   by intro p q hp hq; norm_num [envHalt],
   by norm_num [loopResult, propagateLoop, propStep, initState, stepRK, stepPosition,
      stepEfield, stepRecombines, stepTrapping, stepDetrapTime, carrier_diffusion,
      adaptTimestep, clampStep, Env.vnorm, Vec3.normSq, Vec3.add_mk, Vec3.smul_mk,
      Vec3.sub_mk, Vec3.zero_mk, Vec3.zero_x, Vec3.zero_y, Vec3.zero_z, envHalt,
      noneRecombination, noneTrapping, noneMultiplication,
      state_halted_ne_motion, state_recombined_ne_motion, state_trapped_ne_motion, state_motion_ne_halted, state_recombined_ne_halted, state_trapped_ne_halted],
   halted_intercept_amended envHalt CarrierType.ELECTRON 0 ⟨0, 0, 0⟩ 0 3
     (by norm_num [envHalt])
     (by intro p q hp hq; norm_num [envHalt])
     (by norm_num [loopResult, propagateLoop, propStep, initState, stepRK, stepPosition,
        stepEfield, stepRecombines, stepTrapping, stepDetrapTime, carrier_diffusion,
        adaptTimestep, clampStep, Env.vnorm, Vec3.normSq, Vec3.add_mk, Vec3.smul_mk,
        Vec3.sub_mk, Vec3.zero_mk, Vec3.zero_x, Vec3.zero_y, Vec3.zero_z, envHalt,
        noneRecombination, noneTrapping, noneMultiplication,
      state_halted_ne_motion, state_recombined_ne_motion, state_trapped_ne_motion, state_motion_ne_halted, state_recombined_ne_halted, state_trapped_ne_halted])⟩

/-- Claim C10: within one integration step the terminal-state checks do
not short-circuit: whenever the recombination test fires the state
becomes RECOMBINED even if the containment check already set HALTED in
the same step, and a trapping capture whose detrapping delay overruns
the window overwrites any earlier state with TRAPPED; concretely, in
`envC10` the carrier leaves the sensor and recombines in the same step,
`propagate` returns RECOMBINED, skips the intercept replacement, and
its final position lies outside the sensor volume. -/
theorem step_checks_overwrite (env : Env) (type : CarrierType) (t0 : ℚ) (s : PropState) :
    (stepTrapping env type s = false → stepRecombines env type s = true →
      (propStep env type t0 s).state = CarrierState.RECOMBINED)
    ∧ (stepTrapping env type s = true →
       ¬(t0 + (s.time + s.dt) + stepDetrapTime env type s < env.integration_time) →
       (propStep env type t0 s).state = CarrierState.TRAPPED)
    ∧ ((propagate envC10 CarrierType.ELECTRON 0 ⟨0, 0, 0⟩ 0 3).state = CarrierState.RECOMBINED
       ∧ envC10.isWithinSensor (propagate envC10 CarrierType.ELECTRON 0 ⟨0, 0, 0⟩ 0 3).position
           = false
       ∧ (propagate envC10 CarrierType.ELECTRON 0 ⟨0, 0, 0⟩ 0 3).position =
           (loopResult envC10 CarrierType.ELECTRON 0 ⟨0, 0, 0⟩ 0 3).position) := by
  refine ⟨?_, ?_, ?_, ?_, ?_⟩
  · intro h1 h2
    rw [propStep_state_eq]
    rw [if_neg (by simp [h1]), if_pos h2]
  · intro h1 h2
    rw [propStep_state_eq]
    rw [if_pos ⟨h1, h2⟩]
  · norm_num [propagate, loopResult, propagateLoop, propStep, initState, stepRK,
      stepPosition, stepEfield, stepRecombines, stepTrapping, stepDetrapTime,
      carrier_diffusion, adaptTimestep, clampStep, getSensorIntercept, Env.vnorm,
      Vec3.normSq, Vec3.add_mk, Vec3.smul_mk, Vec3.sub_mk, Vec3.zero_mk,
      Vec3.zero_x, Vec3.zero_y, Vec3.zero_z, envC10, noneTrapping, noneMultiplication,
      state_halted_ne_motion, state_recombined_ne_motion, state_trapped_ne_motion, state_motion_ne_halted, state_recombined_ne_halted, state_trapped_ne_halted]
  · norm_num [propagate, loopResult, propagateLoop, propStep, initState, stepRK,
      stepPosition, stepEfield, stepRecombines, stepTrapping, stepDetrapTime,
      carrier_diffusion, adaptTimestep, clampStep, getSensorIntercept, Env.vnorm,
      Vec3.normSq, Vec3.add_mk, Vec3.smul_mk, Vec3.sub_mk, Vec3.zero_mk,
      Vec3.zero_x, Vec3.zero_y, Vec3.zero_z, envC10, noneTrapping, noneMultiplication,
      state_halted_ne_motion, state_recombined_ne_motion, state_trapped_ne_motion, state_motion_ne_halted, state_recombined_ne_halted, state_trapped_ne_halted]
  · norm_num [propagate, loopResult, propagateLoop, propStep, initState, stepRK,
      stepPosition, stepEfield, stepRecombines, stepTrapping, stepDetrapTime,
      carrier_diffusion, adaptTimestep, clampStep, getSensorIntercept, Env.vnorm,
      Vec3.normSq, Vec3.add_mk, Vec3.smul_mk, Vec3.sub_mk, Vec3.zero_mk,
      Vec3.zero_x, Vec3.zero_y, Vec3.zero_z, envC10, noneTrapping, noneMultiplication,
      state_halted_ne_motion, state_recombined_ne_motion, state_trapped_ne_motion, state_motion_ne_halted, state_recombined_ne_halted, state_trapped_ne_halted]

theorem step_checks_overwrite_witness :
    stepTrapping envC10 CarrierType.ELECTRON (initState envC10 ⟨0, 0, 0⟩ 0) = false
    ∧ stepRecombines envC10 CarrierType.ELECTRON (initState envC10 ⟨0, 0, 0⟩ 0) = true
    ∧ (propStep envC10 CarrierType.ELECTRON 0 (initState envC10 ⟨0, 0, 0⟩ 0)).state =
        CarrierState.RECOMBINED :=
  ⟨by norm_num [stepTrapping, stepRK, stepEfield, initState, Env.vnorm, Vec3.normSq,
      Vec3.add_mk, Vec3.zero_mk, Vec3.zero_x, Vec3.zero_y, Vec3.zero_z, envC10,
      noneTrapping],
   by norm_num [stepRecombines, stepPosition, stepRK, stepEfield, initState,
      carrier_diffusion, Env.vnorm, Vec3.normSq, Vec3.add_mk, Vec3.zero_mk,
      Vec3.zero_x, Vec3.zero_y, Vec3.zero_z, envC10],
   (step_checks_overwrite envC10 CarrierType.ELECTRON 0 (initState envC10 ⟨0, 0, 0⟩ 0)).1
     (by norm_num [stepTrapping, stepRK, stepEfield, initState, Env.vnorm, Vec3.normSq,
        Vec3.add_mk, Vec3.zero_mk, Vec3.zero_x, Vec3.zero_y, Vec3.zero_z, envC10,
        noneTrapping])
     (by norm_num [stepRecombines, stepPosition, stepRK, stepEfield, initState,
        carrier_diffusion, Env.vnorm, Vec3.normSq, Vec3.add_mk, Vec3.zero_mk,
        Vec3.zero_x, Vec3.zero_y, Vec3.zero_z, envC10])⟩

/-- Claim C9: a deposit whose local time exceeds integration_time is
left out of the batching loop entirely: `run` produces zero
PropagatedCharge records for it, consumes no random numbers, changes no
statistics counter, and the rest of the event is processed exactly as
if the deposit were absent; the skip is a logged policy, not an
error. -/
theorem deposit_beyond_window_skipped (env : Env) (pfuel : ℕ) (d : Deposit)
    (idx : ℕ) (st : RunStats) (ds : List Deposit)
    (h : env.integration_time < d.localTime) :
    processDeposit env pfuel d idx st = ([], idx, st)
    ∧ runEvent env pfuel (d :: ds) idx st = runEvent env pfuel ds idx st := by
  have h1 : processDeposit env pfuel d idx st = ([], idx, st) := by
    unfold processDeposit
    split_ifs <;> first | rfl | linarith
  refine ⟨h1, ?_⟩
  simp [runEvent, h1]

theorem deposit_beyond_window_skipped_witness :
    testEnv.integration_time < (26 : ℚ)
    ∧ (processDeposit testEnv 3 ⟨⟨0, 0, 0⟩, 26, 26, CarrierType.ELECTRON, 7⟩ 0 stats0 =
         ([], 0, stats0)
       ∧ runEvent testEnv 3 (⟨⟨0, 0, 0⟩, 26, 26, CarrierType.ELECTRON, 7⟩ :: []) 0 stats0 =
           runEvent testEnv 3 [] 0 stats0) :=
  ⟨by norm_num [testEnv],
   deposit_beyond_window_skipped testEnv 3 ⟨⟨0, 0, 0⟩, 26, 26, CarrierType.ELECTRON, 7⟩
     0 stats0 [] (by norm_num [testEnv])⟩
